import Mathlib

/-!
Verification of the multi-provider resolution engine of `src/app.py`
(animeflv-api-backend): the TTL cache, the cross-identifier extractor,
the unified search/detail orchestration, and the video-source
flattening/categorization logic.

Python values are embedded as the inductive `PyVal` (JSON-like data:
strings, integers, None, lists, dicts as association lists in insertion
order).  Provider HTTP calls are embedded by passing their outcome
(`Outcome`) as an explicit argument; the handler code that consumes the
outcome is translated faithfully from the source.  Regular-expression
searches in the source use only literal patterns (with escaped dots) and
one digit-class group, so they are embedded as explicit scanning
functions over character lists with the same leftmost-match semantics.
-/

namespace AnimeApi

/-- Embedding of the Python/JSON values the endpoints manipulate.
Dicts are association lists in insertion order with unique keys. -/
inductive PyVal where
  | str (s : String)
  | int (n : Int)
  | nullv
  | list (xs : List PyVal)
  | dict (kvs : List (String × PyVal))

/-- Python `d.get(k)`: value when the key is present, None otherwise.
Calling `.get` on a non-dict raises in Python; that path is not reached
in any of the modelled flows and is mapped to None here. -/
def pyGet (d : PyVal) (k : String) : PyVal :=
  match d with
  | .dict kvs =>
    match kvs.lookup k with
    | some v => v
    | none => .nullv
  | _ => .nullv

/-- Python `d.get(k, dflt)`. -/
def pyGetD (d : PyVal) (k : String) (dflt : PyVal) : PyVal :=
  match d with
  | .dict kvs =>
    match kvs.lookup k with
    | some v => v
    | none => dflt
  | _ => dflt

/-- Elements of a Python list; iteration over a non-list value is not
reached in the modelled flows. -/
def pyAsList : PyVal → List PyVal
  | .list xs => xs
  | _ => []

/-- Python truthiness for the embedded values. -/
def pyTruthy : PyVal → Bool
  | .str s => !(s == "")
  | .int n => !(n == 0)
  | .nullv => false
  | .list xs => !xs.isEmpty
  | .dict kvs => !kvs.isEmpty

/-- Python `a or b`. -/
def pyOr (a b : PyVal) : PyVal :=
  if pyTruthy a then a else b

/-- Wrap an optional extracted id the way the handlers store it. -/
def optStr : Option String → PyVal
  | some s => .str s
  | none => .nullv

/-- String form of a scalar value as Python string interpolation renders
it (container reprs are not needed by the modelled flows). -/
def pyStr : PyVal → String
  | .str s => s
  | .int n => toString n
  | .nullv => "None"
  | _ => ""

/-- Python `s.lower()` (ASCII case folding, which is all the handlers
compare). -/
def strLower (s : String) : String :=
  String.mk (s.toList.map Char.toLower)

/-- Python `s.split(sep)[0]` for a one-character separator: the prefix
strictly before the first occurrence of the separator. -/
def takeBeforeDash (s : String) : String :=
  String.mk (s.toList.takeWhile (fun c => !(c == '-')))

-- ------------------------------------------------------------------
-- TTL cache (`cache`, `CACHE_TTL`, `get_cached_data`, `set_cached_data`)
-- ------------------------------------------------------------------

/-- Cache Time-To-Live in seconds, from the source. -/
def CACHE_TTL : Nat := 3600

/-- One stored cache entry: the payload and the stamp taken from
`time.time()` at store time (modelled in whole seconds). -/
structure CacheEntry where
  data : PyVal
  timestamp : Nat

/-- The process-wide `cache` dict, as an association list with unique
keys. -/
abbrev Cache : Type := List (String × CacheEntry)

/-- Python `del cache[key]`. -/
def cacheDelete (c : Cache) (k : String) : Cache :=
  c.filter (fun p => !(p.1 == k))

/-- Source `set_cached_data`: unconditionally overwrite, stamping the
current time.  Dict assignment is modelled as delete-then-append, which
preserves lookup behaviour on the unique-key representation. -/
def set_cached_data (now : Nat) (c : Cache) (k : String) (v : PyVal) : Cache :=
  cacheDelete c k ++ [(k, ⟨v, now⟩)]

/-- Source `get_cached_data`: hit while `now - timestamp < CACHE_TTL`,
otherwise delete the entry and miss.  Returns the read result together
with the cache state after the read. -/
def get_cached_data (now : Nat) (c : Cache) (k : String) :
    Option PyVal × Cache :=
  match (c : List (String × CacheEntry)).lookup k with
  | some e =>
    if now - e.timestamp < CACHE_TTL then (some e.data, c)
    else (none, cacheDelete c k)
  | none => (none, c)

-- ------------------------------------------------------------------
-- Video source categorization (`categorize_video_source`)
-- ------------------------------------------------------------------

/-- Containment of one character list inside another, the semantics of
`re.search` on a literal pattern. -/
def listHas (hay pat : List Char) : Bool :=
  match hay with
  | [] => pat.isEmpty
  | _ :: rest => pat.isPrefixOf hay || listHas rest pat

/-- Substring test on strings. -/
def containsSub (hay pat : String) : Bool :=
  listHas hay.toList pat.toList

/-- The `embed_patterns` list of the source.  Every pattern is a literal
(dots escaped), so `re.search` is exactly substring containment. -/
def embed_patterns : List String :=
  ["embed", "yourupload.com", "streamwish.to", "streame.net",
   "streamtape.com", "fembed.com", "natu.moe", "ok.ru", "my.mail.ru",
   "mega.nz/embed"]

/-- The `direct_patterns` list of the source. -/
def direct_patterns : List String :=
  [".mp4", ".webm", ".ogg", ".mkv", ".avi", ".mov"]

/-- Some embed pattern occurs in the (already lowered) URL. -/
def embedMatches (urlLower : String) : Bool :=
  embed_patterns.any (fun p => containsSub urlLower p)

/-- Some direct-file pattern occurs in the (already lowered) URL. -/
def directMatches (urlLower : String) : Bool :=
  direct_patterns.any (fun p => containsSub urlLower p)

/-- Source `categorize_video_source`: non-strings are tagged unknown;
otherwise the URL is lowered and the embed patterns are tried before the
direct-extension patterns, first match winning. -/
def categorize_video_source (url : PyVal) : String :=
  match url with
  | .str s =>
    let urlLower := strLower s
    if embedMatches urlLower then "embed"
    else if directMatches urlLower then "direct"
    else "unknown"
  | _ => "unknown"

-- ------------------------------------------------------------------
-- Cross-identifier extraction (the regex scans of the source)
-- ------------------------------------------------------------------

/-- Embedding of `re.search` with the source pattern that captures an
IMDb-style id: at the leftmost position where the text "title/tt" is
followed by at least one digit, return "tt" with the maximal digit run.
Returns the captured group, None when nothing matches. -/
def findTitleId : List Char → Option String
  | [] => none
  | c :: rest =>
    if ("title/tt".toList).isPrefixOf (c :: rest) then
      let digs := ((c :: rest).drop 8).takeWhile Char.isDigit
      if digs.isEmpty then findTitleId rest
      else some ("tt" ++ String.mk digs)
    else findTitleId rest

/-- Embedding of `re.search` with the source pattern that captures a
TMDB-style id: at the leftmost position where "/movie/" or "/tv/" is
followed by at least one digit, return that digit run (group 2). -/
def findTmdbId : List Char → Option String
  | [] => none
  | c :: rest =>
    if ("/movie/".toList).isPrefixOf (c :: rest) then
      let digs := ((c :: rest).drop 7).takeWhile Char.isDigit
      if digs.isEmpty then findTmdbId rest
      else some (String.mk digs)
    else if ("/tv/".toList).isPrefixOf (c :: rest) then
      let digs := ((c :: rest).drop 4).takeWhile Char.isDigit
      if digs.isEmpty then findTmdbId rest
      else some (String.mk digs)
    else findTmdbId rest

/-- Loop body of the scan over a Jikan `external` link list.  The state
is the pair (imdb id so far, tmdb id so far); a matching link overwrites
its component, the loop never breaks.  A truthy non-string url would
raise inside `re.search` in Python; no modelled flow reaches it and it
leaves the state unchanged here. -/
def extStep (acc : Option String × Option String) (ext : PyVal) :
    Option String × Option String :=
  let nameOk :=
    match pyGet ext "name" with
    | .str s => s == "IMDb"
    | _ => false
  let nameTm :=
    match pyGet ext "name" with
    | .str s => s == "TMDB"
    | _ => false
  if nameOk && pyTruthy (pyGet ext "url") then
    match pyGet ext "url" with
    | .str u =>
      match findTitleId u.toList with
      | some id => (some id, acc.2)
      | none => acc
    | _ => acc
  else if nameTm && pyTruthy (pyGet ext "url") then
    match pyGet ext "url" with
    | .str u =>
      match findTmdbId u.toList with
      | some id => (acc.1, some id)
      | none => acc
    | _ => acc
  else acc

/-- The full scan over an external-link list (source lines 199-205 and
294-300): both ids start absent and each link is processed in order. -/
def extractExternal (links : List PyVal) : Option String × Option String :=
  links.foldl extStep (none, none)

/-- A link that changes the imdb component of the scan state: platform
label IMDb, truthy string url, and the title pattern matches. -/
def imdbLinkHit (ext : PyVal) : Bool :=
  (match pyGet ext "name" with
   | .str s => s == "IMDb"
   | _ => false) &&
  pyTruthy (pyGet ext "url") &&
  (match pyGet ext "url" with
   | .str u => (findTitleId u.toList).isSome
   | _ => false)

/-- A link that changes the tmdb component of the scan state: platform
label TMDB, truthy string url, and the movie/tv pattern matches. -/
def tmdbExtHit (ext : PyVal) : Bool :=
  (match pyGet ext "name" with
   | .str s => s == "TMDB"
   | _ => false) &&
  pyTruthy (pyGet ext "url") &&
  (match pyGet ext "url" with
   | .str u => (findTmdbId u.toList).isSome
   | _ => false)

/-- Loop body of the scan over IMDbAPI `externalLinks` (source lines
245-248 and 331-334): platform must equal "The Movie Database" and the
url be truthy; a match overwrites the id, the loop never breaks. -/
def tmdbLinkStep (acc : Option String) (link : PyVal) : Option String :=
  if (match pyGet link "platform" with
      | .str s => s == "The Movie Database"
      | _ => false) && pyTruthy (pyGet link "url") then
    match pyGet link "url" with
    | .str u =>
      match findTmdbId u.toList with
      | some id => some id
      | none => acc
    | _ => acc
  else acc

/-- The full scan over an IMDbAPI external-link list. -/
def extractTmdbLinks (links : List PyVal) : Option String :=
  links.foldl tmdbLinkStep none

/-- A link that changes the state of the IMDbAPI external-link scan:
platform label "The Movie Database", truthy string url, and the
movie/tv pattern matches. -/
def tmdbLinkHit (link : PyVal) : Bool :=
  (match pyGet link "platform" with
   | .str s => s == "The Movie Database"
   | _ => false) &&
  pyTruthy (pyGet link "url") &&
  (match pyGet link "url" with
   | .str u => (findTmdbId u.toList).isSome
   | _ => false)

-- ------------------------------------------------------------------
-- Provider call outcomes and handler responses
-- ------------------------------------------------------------------

/-- Outcome of one provider HTTP call as the handlers observe it: a
parsed JSON body, an HTTPError from `raise_for_status` (carrying the
status and the exception text), or a connection-level failure. -/
inductive Outcome where
  | ok (payload : PyVal)
  | httpError (status : Nat) (etext : String)
  | connError (etext : String)

/-- Body of a handler response: a detail payload, a search result list,
or a JSON error object with its error and details fields. -/
inductive RespBody where
  | detail (d : PyVal)
  | results (rs : List PyVal)
  | errorBody (error details : String)

/-- A handler response: HTTP status plus body. -/
structure ApiResponse where
  status : Nat
  body : RespBody

-- ------------------------------------------------------------------
-- Unified search (`unified_search`)
-- ------------------------------------------------------------------

/-- Truthiness of an optional request parameter. -/
def optTruthy : Option String → Bool
  | some s => !(s == "")
  | none => false

/-- The unified-search entry built from one Jikan item (source lines
195-218), including the external-id scan guarded by truthiness of the
`external` field. -/
def jikanEntry (item : PyVal) : PyVal :=
  let ids :=
    if pyTruthy (pyGet item "external") then
      extractExternal (pyAsList (pyGet item "external"))
    else (none, none)
  PyVal.dict [
    ("source", PyVal.str "Jikan"),
    ("content_type", PyVal.str "anime"),
    ("title", pyOr (pyGet item "title_english") (pyGet item "title")),
    ("mal_id", pyGet item "mal_id"),
    ("image_url",
      pyGet (pyGetD (pyGetD item "images" (PyVal.dict [])) "jpg"
        (PyVal.dict [])) "image_url"),
    ("episodes_count", pyGet item "episodes"),
    ("synopsis", pyGet item "synopsis"),
    ("imdb_id", optStr ids.1),
    ("tmdb_id", optStr ids.2),
    ("animeflv_id", PyVal.nullv) ]

/-- The `titleType.text` tag of an IMDbAPI item. -/
def imdbTitleType (item : PyVal) : PyVal :=
  pyGet (pyGetD item "titleType" (PyVal.dict [])) "text"

/-- The content-type allow-list of the source. -/
def allowedTypes : List String :=
  ["movie", "tvSeries", "tvMiniSeries", "tvMovie"]

/-- Python `title_type in [...]`: the tag is a string on the allow-list
(a None tag compares unequal to every entry). -/
def titleTypeAllowed (item : PyVal) : Bool :=
  match imdbTitleType item with
  | .str t => allowedTypes.contains t
  | _ => false

/-- The unified-search entry built from one IMDbAPI item (source lines
242-267), including the TMDB-id scan over its external links. -/
def imdbEntry (item : PyVal) : PyVal :=
  let tmdbId :=
    if pyTruthy (pyGet item "externalLinks") then
      extractTmdbLinks (pyAsList (pyGet item "externalLinks"))
    else none
  PyVal.dict [
    ("source", PyVal.str "IMDbAPI"),
    ("content_type", imdbTitleType item),
    ("title", pyGet item "title"),
    ("imdb_id", pyGet item "id"),
    ("image_url", pyGet (pyGetD item "primaryImage" (PyVal.dict [])) "url"),
    ("release_year", pyGet (pyGetD item "releaseYear" (PyVal.dict [])) "year"),
    ("tmdb_id", optStr tmdbId),
    ("episodes_count", pyGet item "numberOfEpisodes"),
    ("synopsis",
      pyGet (pyGetD (pyGetD item "plot" (PyVal.dict [])) "plotText"
        (PyVal.dict [])) "text"),
    ("animeflv_id", PyVal.nullv) ]

/-- Case-insensitive form of a title value, as the dedup check applies
it.  A missing key yields the empty default of `res.get` in the source;
a present non-string title raises in Python (the exception aborts the
IMDbAPI loop), so the theorems below restrict to string titles. -/
def titleLower (v : PyVal) : String :=
  match v with
  | .str s => strLower s
  | _ => ""

/-- Source lines 251-254: the candidate IMDbAPI item duplicates a Jikan
entry already collected when some earlier result has source Jikan and
the same lower-cased title. -/
def isDuplicateFromJikan (results : List PyVal) (item : PyVal) : Bool :=
  results.any (fun res =>
    (titleLower (pyGet res "title") == titleLower (pyGet item "title")) &&
    (match pyGet res "source" with
     | .str s => s == "Jikan"
     | _ => false))

/-- The IMDbAPI result loop (source lines 238-267): filter by content
type, drop duplicates of collected Jikan entries, append survivors. -/
def imdbFold (init : List PyVal) (items : List PyVal) : List PyVal :=
  items.foldl (fun results item =>
    if titleTypeAllowed item then
      if isDuplicateFromJikan results item then results
      else results ++ [imdbEntry item]
    else results) init

/-- Source `unified_search`, with the two provider call outcomes passed
explicitly.  Any provider failure is caught and logged, leaving the
results collected so far; a missing token skips the IMDbAPI call. -/
def unified_search (query : Option String) (jikanOut : Outcome)
    (tokenConfigured : Bool) (imdbOut : Outcome) : ApiResponse :=
  if !(optTruthy query) then
    { status := 400,
      body := .errorBody
        "Missing query parameter. Please provide a query to search."
        "Parameter query is required." }
  else
    let jikanResults :=
      match jikanOut with
      | .ok jd =>
        if pyTruthy (pyGet jd "data") then
          (pyAsList (pyGet jd "data")).map jikanEntry
        else []
      | _ => []
    let results :=
      if tokenConfigured then
        match imdbOut with
        | .ok idata =>
          if pyTruthy (pyGet idata "results") then
            imdbFold jikanResults (pyAsList (pyGet idata "results"))
          else jikanResults
        | _ => jikanResults
      else jikanResults
    { status := 200, body := .results results }

-- ------------------------------------------------------------------
-- Video source flattening (`get_video_sources_endpoint`)
-- ------------------------------------------------------------------

/-- Python `k in d and isinstance(d[k], str)`: the string value of a
record field when the key is present with a string value. -/
def lookupStrField (kvs : List (String × PyVal)) (k : String) :
    Option String :=
  match kvs.lookup k with
  | some (.str s) => some s
  | _ => none

/-- Record handling inside an inner list (source lines 531-532 and
547-548): the url field is tried before the code field. -/
def urlThenCode (kvs : List (String × PyVal)) : List String :=
  match lookupStrField kvs "url" with
  | some s => [s]
  | none =>
    match lookupStrField kvs "code" with
    | some s => [s]
    | none => []

/-- Record handling for a record that is a direct element of the
top-level list or a direct value of the top-level dict (source lines
537-538 and 552-553): the code field is tried before the url field. -/
def codeThenUrl (kvs : List (String × PyVal)) : List String :=
  match lookupStrField kvs "code" with
  | some s => [s]
  | none =>
    match lookupStrField kvs "url" with
    | some s => [s]
    | none => []

/-- One element of an inner list: a bare string is emitted, a record
goes through the url-then-code check, anything else is dropped with a
diagnostic. -/
def innerItemUrls (v : PyVal) : List String :=
  match v with
  | .str s => [s]
  | .dict kvs => urlThenCode kvs
  | _ => []

/-- The URL flattening of `get_video_sources_endpoint` (source lines
526-558): two-level walk of the raw server output, appending candidate
URLs in discovery order.  Dict iteration follows the association-list
order (insertion order, as in Python dicts). -/
def extract_urls (raw : PyVal) : List String :=
  match raw with
  | .list items =>
    items.flatMap (fun item =>
      match item with
      | .list inner => inner.flatMap innerItemUrls
      | .str s => [s]
      | .dict kvs => codeThenUrl kvs
      | _ => [])
  | .dict kvs =>
    kvs.flatMap (fun kv =>
      match kv.2 with
      | .list inner => inner.flatMap innerItemUrls
      | .str s => [s]
      | .dict d => codeThenUrl d
      | _ => [])
  | _ => []

/-- The categorization pass over the flattened URLs (source lines
560-568): blank URLs are dropped, the rest are tagged and paired with
their URL in order. -/
def get_video_sources (raw : PyVal) : List (String × String) :=
  (extract_urls raw).filterMap (fun url =>
    if !(url.trim == "") then
      some (categorize_video_source (.str url), url)
    else none)

-- ------------------------------------------------------------------
-- Unified detail (`unified_detail`)
-- ------------------------------------------------------------------

/-- List-comprehension over a genre list keeping truthy field values
(source lines 314, 346 and 392). -/
def pyNames (key : String) (gs : PyVal) : List PyVal :=
  (pyAsList gs).filterMap (fun g =>
    let n := pyGet g key
    if pyTruthy n then some n else none)

/-- The detail payload built from a Jikan full-detail record (source
lines 290-316). -/
def jikanDetailData (jd : PyVal) : PyVal :=
  let ids :=
    if pyTruthy (pyGet jd "external") then
      extractExternal (pyAsList (pyGet jd "external"))
    else (none, none)
  PyVal.dict [
    ("source", PyVal.str "Jikan"),
    ("content_type", pyOr (pyGet jd "type") (PyVal.str "anime")),
    ("title", pyOr (pyGet jd "title_english") (pyGet jd "title")),
    ("mal_id", pyGet jd "mal_id"),
    ("imdb_id", optStr ids.1),
    ("tmdb_id", optStr ids.2),
    ("image_url",
      pyGet (pyGetD (pyGetD jd "images" (PyVal.dict [])) "jpg"
        (PyVal.dict [])) "large_image_url"),
    ("synopsis", pyGet jd "synopsis"),
    ("episodes_count", pyGet jd "episodes"),
    ("status", pyGet jd "status"),
    ("score", pyGet jd "score"),
    ("genres", PyVal.list (pyNames "name" (pyGetD jd "genres" (PyVal.list [])))),
    ("release_year", pyGet jd "year") ]

/-- The detail payload built from an IMDbAPI title record (source lines
329-348). -/
def imdbDetailData (idata : PyVal) : PyVal :=
  let tmdbId :=
    if pyTruthy (pyGet idata "externalLinks") then
      extractTmdbLinks (pyAsList (pyGet idata "externalLinks"))
    else none
  PyVal.dict [
    ("source", PyVal.str "IMDbAPI"),
    ("content_type", pyGet (pyGetD idata "titleType" (PyVal.dict [])) "text"),
    ("title", pyGet (pyGetD idata "titleText" (PyVal.dict [])) "text"),
    ("imdb_id", pyGet idata "id"),
    ("tmdb_id", optStr tmdbId),
    ("image_url", pyGet (pyGetD idata "primaryImage" (PyVal.dict [])) "url"),
    ("synopsis",
      pyGet (pyGetD (pyGetD idata "plot" (PyVal.dict [])) "plotText"
        (PyVal.dict [])) "text"),
    ("episodes_count", pyGet idata "numberOfEpisodes"),
    ("release_year", pyGet (pyGetD idata "releaseYear" (PyVal.dict [])) "year"),
    ("genres",
      PyVal.list (pyNames "text"
        (pyGetD (pyGetD idata "genres" (PyVal.dict [])) "genres"
          (PyVal.list [])))),
    ("status",
      if (match pyGet (pyGetD idata "titleType" (PyVal.dict [])) "text" with
          | .str t => t == "tvSeries"
          | _ => false) then
        pyGet (pyGetD idata "seriesEndYear" (PyVal.dict [])) "year"
      else PyVal.nullv),
    ("score", pyGet (pyGetD idata "ratingsSummary" (PyVal.dict []))
      "aggregateRating") ]

/-- The detail payload built from a TMDB record (source lines 382-395),
with the imdb id recovered (or not) from the separate external-ids
call passed in. -/
def tmdbDetailData (ct : String) (td : PyVal) (imdbIdFromTmdb : PyVal) :
    PyVal :=
  PyVal.dict [
    ("source", PyVal.str "TMDB"),
    ("content_type", PyVal.str ct),
    ("title", pyOr (pyGet td "title") (pyGet td "name")),
    ("imdb_id", imdbIdFromTmdb),
    ("tmdb_id", pyGet td "id"),
    ("image_url",
      if pyTruthy (pyGet td "poster_path") then
        PyVal.str ("https://image.tmdb.org/t/p/original" ++
          pyStr (pyGet td "poster_path"))
      else PyVal.nullv),
    ("synopsis", pyGet td "overview"),
    ("episodes_count",
      if ct == "tv" then pyGet td "number_of_episodes" else PyVal.nullv),
    ("release_year",
      if ct == "movie" then
        PyVal.str (takeBeforeDash (pyStr (pyGetD td "release_date"
          (PyVal.str ""))))
      else
        PyVal.str (takeBeforeDash (pyStr (pyGetD td "first_air_date"
          (PyVal.str ""))))),
    ("genres", PyVal.list (pyNames "name" (pyGetD td "genres" (PyVal.list [])))),
    ("status", pyGet td "status"),
    ("score", pyGet td "vote_average") ]

/-- The 404 fallthrough at the end of `unified_detail` (source lines
409-410), reached when no detail payload was produced. -/
def detailNotFoundResp : ApiResponse :=
  { status := 404,
    body := .errorBody
      "Details not found for specified ID and source type."
      "The item might not exist or data is incomplete." }

/-- The Jikan branch of `unified_detail` (source lines 284-319).  A
produced payload is a nonempty dict, hence truthy, so it is returned
with status 200; an empty data field leaves the payload unset and falls
through to the 404 response. -/
def unifiedDetailJikan (out : Outcome) : ApiResponse :=
  match out with
  | .ok resp =>
    let jd := pyGet resp "data"
    if pyTruthy jd then
      { status := 200, body := .detail (jikanDetailData jd) }
    else detailNotFoundResp
  | .httpError _ e =>
    { status := 500,
      body := .errorBody ("Failed to get Jikan details: " ++ e)
        "Could not fetch data from MyAnimeList." }
  | .connError e =>
    { status := 500,
      body := .errorBody ("Failed to get Jikan details: " ++ e)
        "Could not fetch data from MyAnimeList." }

/-- The handler of any RequestException in the IMDbAPI branch (source
lines 350-359): one catch-all that returns status 500 whatever the
provider status was, with a message depending only on whether the TMDB
key is configured. -/
def imdbFailResp (e : String) (tmdbKeyConfigured : Bool) : ApiResponse :=
  if tmdbKeyConfigured then
    { status := 500,
      body := .errorBody ("Failed to get IMDbAPI details: " ++ e)
        "Could not fetch data from IMDbAPI. Frontend can try TMDB if ID available and API key configured." }
  else
    { status := 500,
      body := .errorBody ("Failed to get IMDbAPI details: " ++ e)
        "Could not fetch data from IMDbAPI. TMDB fallback not configured." }

/-- The IMDbAPI branch of `unified_detail` (source lines 321-359). -/
def unifiedDetailIMDb (out : Outcome) (tmdbKeyConfigured : Bool) :
    ApiResponse :=
  match out with
  | .ok idata => { status := 200, body := .detail (imdbDetailData idata) }
  | .httpError _ e => imdbFailResp e tmdbKeyConfigured
  | .connError e => imdbFailResp e tmdbKeyConfigured

/-- The TMDB branch of `unified_detail` (source lines 361-401): the
content-type parameter is validated first; the primary fetch failure is
surfaced as a 500; a failure of the separate external-ids call is
tolerated and leaves the imdb id absent. -/
def unifiedDetailTMDB (ctParam : Option String) (primary : Outcome)
    (extIds : Outcome) : ApiResponse :=
  match ctParam with
  | some ct =>
    if ct == "movie" || ct == "tv" then
      match primary with
      | .ok td =>
        let imdbIdFromTmdb :=
          match extIds with
          | .ok ext => pyGet ext "imdb_id"
          | _ => PyVal.nullv
        { status := 200, body := .detail (tmdbDetailData ct td imdbIdFromTmdb) }
      | .httpError _ e =>
        { status := 500,
          body := .errorBody ("Failed to get TMDB details: " ++ e)
            "Could not fetch data from TMDB API. Check ID or API key." }
      | .connError e =>
        { status := 500,
          body := .errorBody ("Failed to get TMDB details: " ++ e)
            "Could not fetch data from TMDB API. Check ID or API key." }
    else
      { status := 400,
        body := .errorBody
          "Missing or invalid content_type_param for TMDB detail. Must be movie or tv."
          "Frontend must provide content type for TMDB API." }
  | none =>
    { status := 400,
      body := .errorBody
        "Missing or invalid content_type_param for TMDB detail. Must be movie or tv."
        "Frontend must provide content type for TMDB API." }

/-- Source `unified_detail` on a cache miss: dispatch on the declared
source tag, an unrecognized tag being a caller-input 400. -/
def unified_detail (sourceType : String) (ctParam : Option String)
    (jikanOut imdbOut tmdbOut extIdsOut : Outcome)
    (tmdbKeyConfigured : Bool) : ApiResponse :=
  if sourceType == "Jikan" then unifiedDetailJikan jikanOut
  else if sourceType == "IMDbAPI" then
    unifiedDetailIMDb imdbOut tmdbKeyConfigured
  else if sourceType == "TMDB" then
    unifiedDetailTMDB ctParam tmdbOut extIdsOut
  else
    { status := 400,
      body := .errorBody "Invalid source type for unified detail."
        "Source type must be Jikan, IMDbAPI, or TMDB." }

/-- Check used by `categorize_video_source` on its argument, mirroring
the isinstance test of the source. -/
def isStrVal : PyVal → Bool
  | .str _ => true
  | _ => false

/-- The survivor an IMDbAPI search item contributes, given the Jikan
entries collected before the IMDbAPI loop starts: the entry when the
item passes the type filter and duplicates no Jikan entry, nothing
otherwise. -/
def keptImdb (jres : List PyVal) (item : PyVal) : Option PyVal :=
  if titleTypeAllowed item && !(isDuplicateFromJikan jres item) then
    some (imdbEntry item)
  else none

-- ------------------------------------------------------------------
-- Helper lemmas
-- ------------------------------------------------------------------

theorem lookup_set (c : Cache) (k : String) (v : PyVal) (t : Nat) :
    (set_cached_data t c k v).lookup k = some ⟨v, t⟩ := by
  induction c with
  | nil => simp [set_cached_data, cacheDelete, List.lookup]
  | cons p rest ih =>
    by_cases h : p.1 = k
    · simpa [set_cached_data, cacheDelete, List.filter_cons, h] using ih
    · simp only [set_cached_data, cacheDelete, List.filter_cons] at ih ⊢
      have h2 : ¬k = p.1 := fun e => h e.symm
      have hb : (p.1 == k) = false := by simp [h]
      have hb2 : (k == p.1) = false := by simp [h2]
      simp [hb, List.lookup, hb2, ih]

theorem lookup_cacheDelete (c : Cache) (k : String) :
    (cacheDelete c k).lookup k = none := by
  induction c with
  | nil => rfl
  | cons p rest ih =>
    by_cases h : p.1 = k
    · simpa [cacheDelete, List.filter_cons, h] using ih
    · have h2 : ¬k = p.1 := fun e => h e.symm
      have hb : (p.1 == k) = false := by simp [h]
      have hb2 : (k == p.1) = false := by simp [h2]
      simp only [cacheDelete, List.filter_cons] at ih ⊢
      simp [hb, List.lookup, hb2, ih]

theorem extStep_fst_of_miss (acc : Option String × Option String)
    (l : PyVal) (h : imdbLinkHit l = false) : (extStep acc l).1 = acc.1 := by
  cases hn : pyGet l "name" with
  | str s =>
    by_cases hs : s = "IMDb"
    · subst hs
      by_cases ht : pyTruthy (pyGet l "url") = true
      · cases hu : pyGet l "url" with
        | str u =>
          rw [hu] at ht
          simp only [imdbLinkHit, hn, hu, String.toList] at h
          cases hf : findTitleId u.data with
          | some id => simp [ht, hf] at h
          | none => simp [extStep, hn, hu, ht, String.toList, hf]
        | _ => simp_all [extStep]
      · simp [extStep, hn, Bool.and_eq_false_iff, ht]
    · by_cases hstm : s = "TMDB"
      · subst hstm
        cases hu : pyGet l "url" with
        | str u =>
          by_cases ht : pyTruthy (PyVal.str u) = true
          · cases hf : findTmdbId u.data with
            | some id => simp [extStep, hn, hu, ht, String.toList, hf]
            | none => simp [extStep, hn, hu, ht, String.toList, hf]
          · simp [extStep, hn, hu, ht]
        | _ => simp_all [extStep]
      · simp [extStep, hn, hs, hstm]
  | _ => simp_all [extStep]

theorem foldl_extStep_fst (links : List PyVal)
    (acc : Option String × Option String)
    (h : ∀ l ∈ links, imdbLinkHit l = false) :
    (links.foldl extStep acc).1 = acc.1 := by
  induction links generalizing acc with
  | nil => rfl
  | cons l rest ih =>
    rw [List.foldl_cons, ih _ (fun x hx => h x (List.mem_cons_of_mem _ hx))]
    exact extStep_fst_of_miss acc l (h l (List.mem_cons_self _ _))

theorem extStep_imdb_hit (acc : Option String × Option String)
    (u tid : String) (hm : findTitleId u.toList = some tid)
    (hu : (u == "") = false) :
    (extStep acc
      (PyVal.dict [("name", PyVal.str "IMDb"), ("url", PyVal.str u)])).1
      = some tid := by
  have h1 : pyGet (PyVal.dict [("name", PyVal.str "IMDb"),
      ("url", PyVal.str u)]) "name" = PyVal.str "IMDb" := rfl
  have h2 : pyGet (PyVal.dict [("name", PyVal.str "IMDb"),
      ("url", PyVal.str u)]) "url" = PyVal.str u := rfl
  simp only [String.toList] at hm
  simp [extStep, h1, h2, pyTruthy, hu, hm]

theorem extStep_snd_of_miss (acc : Option String × Option String)
    (l : PyVal) (h : tmdbExtHit l = false) : (extStep acc l).2 = acc.2 := by
  cases hn : pyGet l "name" with
  | str s =>
    by_cases hs : s = "IMDb"
    · subst hs
      by_cases ht : pyTruthy (pyGet l "url") = true
      · cases hu : pyGet l "url" with
        | str u =>
          rw [hu] at ht
          cases hf : findTitleId u.data with
          | some id => simp [extStep, hn, hu, ht, String.toList, hf]
          | none => simp [extStep, hn, hu, ht, String.toList, hf]
        | _ => simp_all [extStep]
      · simp [extStep, hn, Bool.and_eq_false_iff, ht]
    · by_cases hstm : s = "TMDB"
      · subst hstm
        by_cases ht : pyTruthy (pyGet l "url") = true
        · cases hu : pyGet l "url" with
          | str u =>
            rw [hu] at ht
            simp only [tmdbExtHit, hn, hu, String.toList] at h
            cases hf : findTmdbId u.data with
            | some id => simp [ht, hf] at h
            | none => simp [extStep, hn, hu, ht, String.toList, hf]
          | _ => simp_all [extStep]
        · simp [extStep, hn, Bool.and_eq_false_iff, ht]
      · simp [extStep, hn, hs, hstm]
  | _ => simp_all [extStep]

theorem foldl_extStep_snd (links : List PyVal)
    (acc : Option String × Option String)
    (h : ∀ l ∈ links, tmdbExtHit l = false) :
    (links.foldl extStep acc).2 = acc.2 := by
  induction links generalizing acc with
  | nil => rfl
  | cons l rest ih =>
    rw [List.foldl_cons, ih _ (fun x hx => h x (List.mem_cons_of_mem _ hx))]
    exact extStep_snd_of_miss acc l (h l (List.mem_cons_self _ _))

theorem extStep_tmdb_hit (acc : Option String × Option String)
    (u tid : String) (hm : findTmdbId u.toList = some tid)
    (hu : (u == "") = false) :
    (extStep acc
      (PyVal.dict [("name", PyVal.str "TMDB"), ("url", PyVal.str u)])).2
      = some tid := by
  have h1 : pyGet (PyVal.dict [("name", PyVal.str "TMDB"),
      ("url", PyVal.str u)]) "name" = PyVal.str "TMDB" := rfl
  have h2 : pyGet (PyVal.dict [("name", PyVal.str "TMDB"),
      ("url", PyVal.str u)]) "url" = PyVal.str u := rfl
  simp only [String.toList] at hm
  simp [extStep, h1, h2, pyTruthy, hu, hm]

theorem tmdbLinkStep_of_miss (acc : Option String) (l : PyVal)
    (h : tmdbLinkHit l = false) : tmdbLinkStep acc l = acc := by
  cases hp : pyGet l "platform" with
  | str s =>
    by_cases hs : s = "The Movie Database"
    · subst hs
      by_cases ht : pyTruthy (pyGet l "url") = true
      · cases hu : pyGet l "url" with
        | str u =>
          rw [hu] at ht
          simp only [tmdbLinkHit, hp, hu, String.toList] at h
          cases hf : findTmdbId u.data with
          | some id => simp [ht, hf] at h
          | none => simp [tmdbLinkStep, hp, hu, ht, String.toList, hf]
        | _ => simp_all [tmdbLinkStep]
      · simp [tmdbLinkStep, hp, Bool.and_eq_false_iff, ht]
    · simp [tmdbLinkStep, hp, hs]
  | _ => simp_all [tmdbLinkStep]

theorem foldl_tmdbLinkStep (links : List PyVal) (acc : Option String)
    (h : ∀ l ∈ links, tmdbLinkHit l = false) :
    links.foldl tmdbLinkStep acc = acc := by
  induction links generalizing acc with
  | nil => rfl
  | cons l rest ih =>
    rw [List.foldl_cons, ih _ (fun x hx => h x (List.mem_cons_of_mem _ hx))]
    exact tmdbLinkStep_of_miss acc l (h l (List.mem_cons_self _ _))

theorem tmdbLinkStep_hit (acc : Option String) (u tid : String)
    (hm : findTmdbId u.toList = some tid) (hu : (u == "") = false) :
    tmdbLinkStep acc
      (PyVal.dict [("platform", PyVal.str "The Movie Database"),
        ("url", PyVal.str u)]) = some tid := by
  have h1 : pyGet (PyVal.dict [("platform", PyVal.str "The Movie Database"),
      ("url", PyVal.str u)]) "platform"
      = PyVal.str "The Movie Database" := rfl
  have h2 : pyGet (PyVal.dict [("platform", PyVal.str "The Movie Database"),
      ("url", PyVal.str u)]) "url" = PyVal.str u := rfl
  simp only [String.toList] at hm
  simp [tmdbLinkStep, h1, h2, pyTruthy, hu, hm]

theorem isDup_append (a b : List PyVal) (item : PyVal) :
    isDuplicateFromJikan (a ++ b) item
      = (isDuplicateFromJikan a item || isDuplicateFromJikan b item) := by
  simp [isDuplicateFromJikan, List.any_append]

theorem isDup_of_nonJikan (b : List PyVal) (item : PyVal)
    (hb : ∀ r ∈ b, (match pyGet r "source" with
      | .str s => s == "Jikan"
      | _ => false) = false) :
    isDuplicateFromJikan b item = false := by
  simp only [isDuplicateFromJikan, List.any_eq_false]
  intro r hr
  simp [hb r hr]

theorem imdbEntry_source (item : PyVal) :
    pyGet (imdbEntry item) "source" = PyVal.str "IMDbAPI" := rfl

theorem jikanEntry_source (j : PyVal) :
    pyGet (jikanEntry j) "source" = PyVal.str "Jikan" := rfl

theorem imdbFold_spec (jres : List PyVal) (items : List PyVal)
    (extra : List PyVal)
    (hextra : ∀ r ∈ extra, (match pyGet r "source" with
      | .str s => s == "Jikan"
      | _ => false) = false) :
    imdbFold (jres ++ extra) items
      = (jres ++ extra) ++ items.filterMap (keptImdb jres) := by
  induction items generalizing extra with
  | nil => simp [imdbFold]
  | cons item rest ih =>
    simp only [imdbFold, List.foldl_cons] at ih ⊢
    have hdup : isDuplicateFromJikan (jres ++ extra) item
        = isDuplicateFromJikan jres item := by
      rw [isDup_append, isDup_of_nonJikan extra item hextra, Bool.or_false]
    by_cases hA : titleTypeAllowed item = true
    · by_cases hD : isDuplicateFromJikan jres item = true
      · rw [if_pos hA, hdup, if_pos hD]
        rw [ih extra hextra]
        simp [keptImdb, hA, hD, List.filterMap_cons]
      · rw [if_pos hA, hdup, if_neg hD]
        have hx : ∀ r ∈ extra ++ [imdbEntry item],
            (match pyGet r "source" with
             | .str s => s == "Jikan"
             | _ => false) = false := by
          intro r hr
          rcases List.mem_append.mp hr with h | h
          · exact hextra r h
          · rcases List.mem_singleton.mp h with rfl
            rw [imdbEntry_source]
            decide
        have hrec := ih (extra ++ [imdbEntry item]) hx
        simp only [List.append_assoc] at hrec ⊢
        rw [hrec]
        simp [keptImdb, hA, hD, List.filterMap_cons]
    · rw [if_neg hA, ih extra hextra]
      simp [keptImdb, hA, List.filterMap_cons]

theorem isPrefixOf_append_self (p t : List Char) :
    p.isPrefixOf (p ++ t) = true := by
  rw [List.isPrefixOf_iff_prefix]
  exact List.prefix_append p t

theorem listHas_of_infix {hay pat : List Char} (h : pat <:+: hay) :
    listHas hay pat = true := by
  obtain ⟨s, t, hst⟩ := h
  subst hst
  induction s with
  | nil =>
    simp only [List.nil_append]
    cases pat with
    | nil =>
      cases t with
      | nil => rfl
      | cons x xs => simp [listHas, List.isPrefixOf_iff_prefix]
    | cons a b =>
      simp only [List.cons_append, listHas]
      rw [show a :: (b ++ t) = (a :: b) ++ t from rfl]
      rw [isPrefixOf_append_self (a :: b) t]
      simp
  | cons c srest ih =>
    simp only [List.cons_append, listHas] at ih ⊢
    simp only [List.append_assoc] at ih
    simp [List.append_eq, ih]

-- ------------------------------------------------------------------
-- Claims
-- ------------------------------------------------------------------

/-- C1, counterexample: the claim says a provider not-found condition in
the GeneralTitle (IMDbAPI) branch of unified detail reaches the caller
as a distinct not-found category.  The code answers a provider 404 with
status 500: the response status is 500 and not 404. -/
theorem C1_counterexample :
    (unifiedDetailIMDb (.httpError 404 "404 Client Error") true).status = 500
    ∧ ¬(unifiedDetailIMDb (.httpError 404 "404 Client Error") true).status
        = 404 := by
  exact ⟨rfl, by decide⟩

/-- C1, amended: for the unified detail operation with source
GeneralTitle (IMDbAPI), when the provider reports a not-found condition
(or any other request failure), the caller receives a structured error
response — HTTP 500 with an error body — not a crash and not an empty
success; the not-found condition is folded into this generic upstream
error rather than reported as a distinct not-found category. -/
theorem C1 (st : Nat) (e : String) (cfg : Bool) :
    (unifiedDetailIMDb (.httpError st e) cfg).status = 500
    ∧ ∃ a b, (unifiedDetailIMDb (.httpError st e) cfg).body
        = RespBody.errorBody a b := by
  cases cfg <;> simp [unifiedDetailIMDb, imdbFailResp]

/-- C2, counterexample: the claim says the id of the first matching
link wins and later links never change the result.  With two matching
IMDb links the scan returns the id of the second link, not the first. -/
theorem C2_counterexample :
    (extractExternal
      [PyVal.dict [("name", PyVal.str "IMDb"),
        ("url", PyVal.str "x/title/tt111")],
       PyVal.dict [("name", PyVal.str "IMDb"),
        ("url", PyVal.str "x/title/tt222")]]).1 = some "tt222"
    ∧ ¬(extractExternal
      [PyVal.dict [("name", PyVal.str "IMDb"),
        ("url", PyVal.str "x/title/tt111")],
       PyVal.dict [("name", PyVal.str "IMDb"),
        ("url", PyVal.str "x/title/tt222")]]).1 = some "tt111" := by
  constructor
  · decide
  · decide

/-- C2, amended: for every target platform of the Identifier Extractor
— the IMDb and TMDB components of the Jikan external-link scan, and the
TMDB scan over IMDbAPI external links — the extractor returns the id
extracted from the last link in scan order whose platform matches and
whose URL matches the pattern (each platform still contributes at most
one id per call), and when no link matches, the result is absent rather
than an error. -/
theorem C2 (pre post : List PyVal) (u tid : String)
    (hm : findTitleId u.toList = some tid)
    (hpost : ∀ l ∈ post, imdbLinkHit l = false) :
    (extractExternal (pre ++
      PyVal.dict [("name", PyVal.str "IMDb"), ("url", PyVal.str u)]
        :: post)).1 = some tid
    ∧ (∀ links : List PyVal, (∀ l ∈ links, imdbLinkHit l = false) →
        (extractExternal links).1 = none)
    ∧ (∀ (pre2 post2 : List PyVal) (w wid : String),
        findTmdbId w.toList = some wid →
        (∀ l ∈ post2, tmdbExtHit l = false) →
        (extractExternal (pre2 ++
          PyVal.dict [("name", PyVal.str "TMDB"), ("url", PyVal.str w)]
            :: post2)).2 = some wid)
    ∧ (∀ links : List PyVal, (∀ l ∈ links, tmdbExtHit l = false) →
        (extractExternal links).2 = none)
    ∧ (∀ (pre2 post2 : List PyVal) (w wid : String),
        findTmdbId w.toList = some wid →
        (∀ l ∈ post2, tmdbLinkHit l = false) →
        extractTmdbLinks (pre2 ++
          PyVal.dict [("platform", PyVal.str "The Movie Database"),
            ("url", PyVal.str w)] :: post2) = some wid)
    ∧ (∀ links : List PyVal, (∀ l ∈ links, tmdbLinkHit l = false) →
        extractTmdbLinks links = none) := by
  refine ⟨?_, ?_, ?_, ?_, ?_, ?_⟩
  · have hu : (u == "") = false := by
      by_cases hue : u = ""
      · subst hue
        simp [findTitleId] at hm
      · simp [hue]
    show ((pre ++
      PyVal.dict [("name", PyVal.str "IMDb"), ("url", PyVal.str u)]
        :: post).foldl extStep (none, none)).1 = some tid
    rw [List.foldl_append, List.foldl_cons]
    rw [foldl_extStep_fst post _ hpost]
    exact extStep_imdb_hit _ u tid hm hu
  · intro links hl
    exact foldl_extStep_fst links (none, none) hl
  · intro pre2 post2 w wid hm2 hpost2
    have hw : (w == "") = false := by
      by_cases hwe : w = ""
      · subst hwe
        simp [findTmdbId] at hm2
      · simp [hwe]
    show ((pre2 ++
      PyVal.dict [("name", PyVal.str "TMDB"), ("url", PyVal.str w)]
        :: post2).foldl extStep (none, none)).2 = some wid
    rw [List.foldl_append, List.foldl_cons]
    rw [foldl_extStep_snd post2 _ hpost2]
    exact extStep_tmdb_hit _ w wid hm2 hw
  · intro links hl
    exact foldl_extStep_snd links (none, none) hl
  · intro pre2 post2 w wid hm2 hpost2
    have hw : (w == "") = false := by
      by_cases hwe : w = ""
      · subst hwe
        simp [findTmdbId] at hm2
      · simp [hwe]
    show (pre2 ++
      PyVal.dict [("platform", PyVal.str "The Movie Database"),
        ("url", PyVal.str w)] :: post2).foldl tmdbLinkStep none = some wid
    rw [List.foldl_append, List.foldl_cons]
    rw [foldl_tmdbLinkStep post2 _ hpost2]
    exact tmdbLinkStep_hit _ w wid hm2 hw
  · intro links hl
    exact foldl_tmdbLinkStep links none hl

/-- C2, witness: with an earlier matching link of the same platform
present in each scan, the extractor returns the id of the later
matching link, for the IMDb and TMDB components of the Jikan scan and
for the IMDbAPI external-link scan. -/
theorem C2_witness :
    (extractExternal
      [PyVal.dict [("name", PyVal.str "IMDb"),
        ("url", PyVal.str "a/title/tt1")],
       PyVal.dict [("name", PyVal.str "IMDb"),
        ("url", PyVal.str "b/title/tt9")]]).1 = some "tt9"
    ∧ (extractExternal
      [PyVal.dict [("name", PyVal.str "TMDB"),
        ("url", PyVal.str "a/movie/1")],
       PyVal.dict [("name", PyVal.str "TMDB"),
        ("url", PyVal.str "b/tv/99")]]).2 = some "99"
    ∧ extractTmdbLinks
      [PyVal.dict [("platform", PyVal.str "The Movie Database"),
        ("url", PyVal.str "c/movie/7")],
       PyVal.dict [("platform", PyVal.str "The Movie Database"),
        ("url", PyVal.str "d/movie/42")]] = some "42" := by
  have h := C2 [PyVal.dict [("name", PyVal.str "IMDb"),
      ("url", PyVal.str "a/title/tt1")]] [] "b/title/tt9" "tt9"
    (by decide) (by intro l hl; exact absurd hl (List.not_mem_nil l))
  refine ⟨h.1, ?_, ?_⟩
  · exact h.2.2.1 [PyVal.dict [("name", PyVal.str "TMDB"),
      ("url", PyVal.str "a/movie/1")]] [] "b/tv/99" "99"
      (by decide) (by intro l hl; exact absurd hl (List.not_mem_nil l))
  · exact h.2.2.2.2.1 [PyVal.dict
      [("platform", PyVal.str "The Movie Database"),
       ("url", PyVal.str "c/movie/7")]] [] "d/movie/42" "42"
      (by decide) (by intro l hl; exact absurd hl (List.not_mem_nil l))

/-- C3, counterexample: the claim says the url field always takes
precedence over the code field.  For a record that is a direct element
of the top-level list, the code field wins: the flattening emits the
code value, not the url value. -/
theorem C3_counterexample :
    extract_urls (PyVal.list [PyVal.dict
      [("url", PyVal.str "a"), ("code", PyVal.str "b")]]) = ["b"]
    ∧ ¬extract_urls (PyVal.list [PyVal.dict
      [("url", PyVal.str "a"), ("code", PyVal.str "b")]]) = ["a"] := by
  constructor
  · decide
  · decide

/-- C3, amended: for a record leaf holding both a url and a code string,
the emitted candidate depends on where the record sits: inside an inner
list the url field takes precedence, while for a record that is a direct
element of the top-level list or a direct value of the top-level mapping
the code field takes precedence. -/
theorem C3 (kvs : List (String × PyVal)) (u c : String)
    (hu : lookupStrField kvs "url" = some u)
    (hc : lookupStrField kvs "code" = some c) :
    extract_urls (PyVal.list [PyVal.list [PyVal.dict kvs]]) = [u]
    ∧ extract_urls (PyVal.dict [("srv", PyVal.list [PyVal.dict kvs])]) = [u]
    ∧ extract_urls (PyVal.list [PyVal.dict kvs]) = [c]
    ∧ extract_urls (PyVal.dict [("srv", PyVal.dict kvs)]) = [c] := by
  refine ⟨?_, ?_, ?_, ?_⟩ <;>
    simp [extract_urls, innerItemUrls, urlThenCode, codeThenUrl, hu, hc]

/-- C3, witness: the four record positions evaluated on a record with
url "a" and code "b". -/
theorem C3_witness :
    extract_urls (PyVal.list [PyVal.list [PyVal.dict
      [("url", PyVal.str "a"), ("code", PyVal.str "b")]]]) = ["a"]
    ∧ extract_urls (PyVal.dict [("srv", PyVal.list [PyVal.dict
      [("url", PyVal.str "a"), ("code", PyVal.str "b")]])]) = ["a"]
    ∧ extract_urls (PyVal.list [PyVal.dict
      [("url", PyVal.str "a"), ("code", PyVal.str "b")]]) = ["b"]
    ∧ extract_urls (PyVal.dict [("srv", PyVal.dict
      [("url", PyVal.str "a"), ("code", PyVal.str "b")])]) = ["b"] :=
  C3 [("url", PyVal.str "a"), ("code", PyVal.str "b")] "a" "b" rfl rfl

/-- C4: the unified search never fails the whole request on a provider
failure: with the Anime-Catalog (Jikan) call failing, the General-Title
(IMDbAPI) results are still processed and returned with status 200, and
when both providers fail the response is a 200 success carrying an empty
result list. -/
theorem C4 (q : Option String) (hq : optTruthy q = true) (st : Nat)
    (e1 e2 : String) (idata : PyVal) :
    (unified_search q (.httpError st e1) true (.ok idata)).status = 200
    ∧ (unified_search q (.httpError st e1) true (.ok idata)).body
        = RespBody.results (if pyTruthy (pyGet idata "results") then
            imdbFold [] (pyAsList (pyGet idata "results")) else [])
    ∧ unified_search q (.httpError st e1) true (.connError e2)
        = { status := 200, body := RespBody.results [] } := by
  refine ⟨?_, ?_, ?_⟩ <;> simp [unified_search, hq]

/-- C4, witness: concrete instance with a failing Jikan call, an empty
IMDbAPI payload, and a connection failure for both-fail. -/
theorem C4_witness :
    (unified_search (some "naruto") (.httpError 500 "down") true
      (.ok (PyVal.dict []))).status = 200
    ∧ (unified_search (some "naruto") (.httpError 500 "down") true
        (.ok (PyVal.dict []))).body
        = RespBody.results (if pyTruthy (pyGet (PyVal.dict []) "results") then
            imdbFold [] (pyAsList (pyGet (PyVal.dict []) "results")) else [])
    ∧ unified_search (some "naruto") (.httpError 500 "down") true
        (.connError "refused")
        = { status := 200, body := RespBody.results [] } :=
  C4 (some "naruto") rfl 500 "down" "refused" (PyVal.dict [])

/-- Closed form of the IMDbAPI result loop from an initial Jikan-only
accumulator: the Jikan entries are kept unchanged in front and each item
contributes through `keptImdb`. -/
theorem imdbFold_closed (jres items : List PyVal) :
    imdbFold jres items = jres ++ items.filterMap (keptImdb jres) := by
  have h := imdbFold_spec jres items []
    (by intro r hr; exact absurd hr (List.not_mem_nil r))
  simpa using h

/-- C5: in the unified search output the Anime-Catalog (Jikan) entries
all appear first and are never dropped; each General-Title (IMDbAPI)
item that passes the type filter survives through `keptImdb`, and it is
dropped exactly when some Jikan item of the same batch has the same
lower-cased title.  Titles are assumed to be strings, matching the
domain on which the Python comparison is defined. -/
theorem C5 (q : Option String) (hq : optTruthy q = true)
    (jitems iitems : List PyVal)
    (hjt : ∀ j ∈ jitems, ∃ s, pyGet (jikanEntry j) "title" = PyVal.str s)
    (hit : ∀ i ∈ iitems, ∃ s, pyGet i "title" = PyVal.str s) :
    (unified_search q (.ok (PyVal.dict [("data", PyVal.list jitems)])) true
        (.ok (PyVal.dict [("results", PyVal.list iitems)]))).body
      = RespBody.results ((jitems.map jikanEntry) ++
          iitems.filterMap (keptImdb (jitems.map jikanEntry)))
    ∧ ∀ item, titleTypeAllowed item = true →
        ((keptImdb (jitems.map jikanEntry) item = none) ↔
          ∃ j ∈ jitems,
            titleLower (pyGet (jikanEntry j) "title")
              = titleLower (pyGet item "title")) := by
  constructor
  · cases jitems with
    | nil =>
      cases iitems with
      | nil => simp [unified_search, hq, pyGet, pyTruthy, List.lookup]
      | cons i is =>
        simp [unified_search, hq, pyGet, pyTruthy, List.lookup, pyAsList,
          imdbFold_closed]
    | cons j js =>
      cases iitems with
      | nil => simp [unified_search, hq, pyGet, pyTruthy, List.lookup, pyAsList]
      | cons i is =>
        simp [unified_search, hq, pyGet, pyTruthy, List.lookup, pyAsList,
          imdbFold_closed]
  · intro item hA
    by_cases hD : isDuplicateFromJikan (jitems.map jikanEntry) item = true
    · simp [keptImdb, hA, hD]
      obtain ⟨r, hr, hp⟩ := List.any_eq_true.mp hD
      obtain ⟨j, hj, rfl⟩ := List.mem_map.mp hr
      refine ⟨j, hj, ?_⟩
      rw [jikanEntry_source] at hp
      simp only [Bool.and_eq_true, beq_iff_eq] at hp
      exact hp.1
    · have hD2 : isDuplicateFromJikan (jitems.map jikanEntry) item = false := by
        simpa using hD
      simp [keptImdb, hA, hD2]
      intro j hj heq
      have hTrue : isDuplicateFromJikan (jitems.map jikanEntry) item = true := by
        apply List.any_eq_true.mpr
        refine ⟨jikanEntry j, List.mem_map_of_mem _ hj, ?_⟩
        rw [jikanEntry_source]
        simp [heq]
      rw [hTrue] at hD2
      cases hD2

/-- C5, witness: one Jikan item titled "Attack on Titan" and one
IMDbAPI movie titled "attack on titan": the merged output is exactly
the Jikan entry, the case-different IMDbAPI duplicate being dropped. -/
theorem C5_witness :
    (unified_search (some "q")
      (.ok (PyVal.dict [("data", PyVal.list
        [PyVal.dict [("title", PyVal.str "Attack on Titan")]])]))
      true
      (.ok (PyVal.dict [("results", PyVal.list
        [PyVal.dict [("title", PyVal.str "attack on titan"),
          ("titleType", PyVal.dict [("text", PyVal.str "movie")])]])]))).body
      = RespBody.results
          [jikanEntry (PyVal.dict [("title", PyVal.str "Attack on Titan")])] := by
  have h := (C5 (some "q") rfl
    [PyVal.dict [("title", PyVal.str "Attack on Titan")]]
    [PyVal.dict [("title", PyVal.str "attack on titan"),
      ("titleType", PyVal.dict [("text", PyVal.str "movie")])]]
    (by
      intro j hj
      rw [List.mem_singleton] at hj
      subst hj
      exact ⟨"Attack on Titan", rfl⟩)
    (by
      intro i hi
      rw [List.mem_singleton] at hi
      subst hi
      exact ⟨"attack on titan", rfl⟩)).1
  rw [h]
  rfl

/-- C6: immediately after `set_cached_data` at time t, a read at time t
returns the stored value; a read at a time at least TTL seconds past the
stamp returns absent and removes the entry from the cache storage. -/
theorem C6 (c : Cache) (k : String) (v : PyVal) (t tg : Nat)
    (h : CACHE_TTL ≤ tg - t) :
    (get_cached_data t (set_cached_data t c k v) k).1 = some v
    ∧ (get_cached_data tg (set_cached_data t c k v) k).1 = none
    ∧ ((get_cached_data tg (set_cached_data t c k v) k).2).lookup k
        = none := by
  have hl := lookup_set c k v t
  have hnot : ¬(tg - t < CACHE_TTL) := Nat.not_lt.mpr h
  refine ⟨?_, ?_, ?_⟩
  · simp [get_cached_data, hl, CACHE_TTL]
  · simp [get_cached_data, hl, hnot]
  · simp [get_cached_data, hl, hnot, lookup_cacheDelete]

/-- C6, witness: store at time 0, read back at time 0 and at time 3600
(the TTL). -/
theorem C6_witness :
    (get_cached_data 0 (set_cached_data 0 [] "k" (PyVal.str "v")) "k").1
      = some (PyVal.str "v")
    ∧ (get_cached_data 3600 (set_cached_data 0 [] "k" (PyVal.str "v")) "k").1
        = none
    ∧ ((get_cached_data 3600
        (set_cached_data 0 [] "k" (PyVal.str "v")) "k").2).lookup "k"
        = none :=
  C6 [] "k" (PyVal.str "v") 0 3600 (by decide)

/-- C7: for the unified detail operation with source SecondaryMetadata
(TMDB), when the primary detail fetch succeeds and the separate cross-id
fetch fails, the operation returns the complete detail payload with
status 200, the cross-id field being None — never an error. -/
theorem C7 (td : PyVal) (st : Nat) (e1 e2 : String) :
    unifiedDetailTMDB (some "movie") (.ok td) (.httpError st e1)
      = { status := 200,
          body := RespBody.detail (tmdbDetailData "movie" td PyVal.nullv) }
    ∧ unifiedDetailTMDB (some "tv") (.ok td) (.connError e2)
      = { status := 200,
          body := RespBody.detail (tmdbDetailData "tv" td PyVal.nullv) }
    ∧ pyGet (tmdbDetailData "movie" td PyVal.nullv) "imdb_id" = PyVal.nullv
    ∧ pyGet (tmdbDetailData "tv" td PyVal.nullv) "imdb_id" = PyVal.nullv :=
  ⟨rfl, rfl, rfl, rfl⟩

/-- C8: categorization lower-cases the URL and tries the embed rules
before the direct-extension rules: any URL matching an embed pattern is
tagged embed (even if it also carries a direct file extension); a URL
ending in ".mp4" that matches no embed pattern is tagged direct; and a
URL matching neither rule set is tagged unknown. -/
theorem C8 (s : String) :
    (embedMatches (strLower s) = true →
      categorize_video_source (PyVal.str s) = "embed")
    ∧ (".mp4".toList.isSuffixOf (strLower s).toList = true →
        embedMatches (strLower s) = false →
        categorize_video_source (PyVal.str s) = "direct")
    ∧ (embedMatches (strLower s) = false →
        directMatches (strLower s) = false →
        categorize_video_source (PyVal.str s) = "unknown") := by
  refine ⟨?_, ?_, ?_⟩
  · intro he
    simp [categorize_video_source, he]
  · intro hsuf hne
    have hs2 : ".mp4".toList <:+ (strLower s).toList :=
      List.isSuffixOf_iff_suffix.mp hsuf
    have hc : containsSub (strLower s) ".mp4" = true :=
      listHas_of_infix hs2.isInfix
    have hd : directMatches (strLower s) = true := by
      unfold directMatches
      apply List.any_eq_true.mpr
      exact ⟨".mp4", by decide, hc⟩
    simp [categorize_video_source, hne, hd]
  · intro he hd
    simp [categorize_video_source, he, hd]

/-- C8, witness: a URL with both an embed marker and a direct extension
is embed; a plain mp4 URL is direct; a bare page URL is unknown. -/
theorem C8_witness :
    categorize_video_source (PyVal.str "https://ok.ru/Embed/x.mp4") = "embed"
    ∧ categorize_video_source (PyVal.str "http://cdn.example/v.mp4") = "direct"
    ∧ categorize_video_source (PyVal.str "http://example.net/page")
        = "unknown" :=
  ⟨(C8 "https://ok.ru/Embed/x.mp4").1 (by decide),
   (C8 "http://cdn.example/v.mp4").2.1 (by decide) (by decide),
   (C8 "http://example.net/page").2.2 (by decide) (by decide)⟩

/-- C9: the four raw payload shapes that encode the same three ordered
URLs — list of lists of strings, list of one-URL records, mapping to
lists of strings, and mapping to one-URL records — flatten to the same
ordered URL list. -/
theorem C9 (u1 u2 u3 : String) :
    extract_urls (PyVal.list
      [PyVal.list [PyVal.str u1, PyVal.str u2, PyVal.str u3]])
      = [u1, u2, u3]
    ∧ extract_urls (PyVal.list
      [PyVal.dict [("url", PyVal.str u1)],
       PyVal.dict [("url", PyVal.str u2)],
       PyVal.dict [("url", PyVal.str u3)]])
      = [u1, u2, u3]
    ∧ extract_urls (PyVal.dict
      [("SUB", PyVal.list [PyVal.str u1, PyVal.str u2]),
       ("LAT", PyVal.list [PyVal.str u3])])
      = [u1, u2, u3]
    ∧ extract_urls (PyVal.dict
      [("a", PyVal.dict [("url", PyVal.str u1)]),
       ("b", PyVal.dict [("url", PyVal.str u2)]),
       ("c", PyVal.dict [("url", PyVal.str u3)])])
      = [u1, u2, u3] :=
  ⟨rfl, rfl, rfl, rfl⟩

/-- C10: the categorization function is total over all embedded values,
and on any non-string input it returns the tag unknown. -/
theorem C10 (v : PyVal) (h : isStrVal v = false) :
    categorize_video_source v = "unknown" := by
  cases v <;> simp_all [isStrVal, categorize_video_source]

/-- C10, witness: a number input is categorized unknown. -/
theorem C10_witness : categorize_video_source (PyVal.int 3) = "unknown" :=
  C10 (PyVal.int 3) rfl

end AnimeApi
